import Mathlib

/-!
Shallow embedding of the fixture-writing library in src/src/lib.rs
(crate proof_fixture_utils).

The Rust source defines plain data types (SP1ProofWithPublicValues,
SP1VerifyingKey, ProofSystem, ProofFixture) that derive serde
Serialize/Deserialize, and one function create_proof_fixture that
creates the fixtures directory, builds a ProofFixture from its inputs,
picks a filename from the ProofSystem tag, serializes the fixture with
serde_json and writes it to fixtures/<filename>.

Bytes (Rust u8) are modelled as Fin 256.  JSON documents are modelled
as an abstract syntax tree; serde_json semantics for the derived
instances are encoded directly:
  - Vec<u8> serializes as a JSON array of numbers (the serde derive for
    Vec goes through the sequence serializer, which serde_json renders
    as an array; each u8 renders as an unsigned decimal number);
  - a unit enum variant serializes as a JSON string holding the
    variant name (externally tagged representation, serde default);
  - a struct serializes as a JSON object with one member per field, in
    declaration order, keyed by the field name.
The filesystem and the fallible I/O steps are modelled by explicit
state passing: an FS value holds the fixtures directory flag and the
file map, and an Env oracle says which of the fallible external steps
(directory creation, serialization, file write) fail on this call.
Rendering of the JSON tree to text by serde_json::to_string_pretty is
elided: files store the serialized JSON document itself.
-/

/-- A byte, Rust u8. -/
abbrev Byte := Fin 256

/-- Rust struct SP1ProofWithPublicValues (lib.rs lines 11-17). -/
structure SP1ProofWithPublicValues where
  proof : List Byte
  public_values : List Byte
deriving DecidableEq, Repr

/-- Rust struct SP1VerifyingKey (lib.rs lines 21-25). -/
structure SP1VerifyingKey where
  vk : List Byte
deriving DecidableEq, Repr

/-- Rust enum ProofSystem (lib.rs lines 28-36). -/
inductive ProofSystem where
  | Plonk
  | Groth16
  | STARK
deriving DecidableEq, Repr

/-- Rust struct ProofFixture (lib.rs lines 39-49). -/
structure ProofFixture where
  proof : List Byte
  public_values : List Byte
  vk : List Byte
  system : ProofSystem
deriving DecidableEq, Repr

/-- JSON documents, as produced and consumed by serde_json. -/
inductive Json where
  | num (n : Nat)
  | str (s : String)
  | arr (elems : List Json)
  | obj (fields : List (String × Json))
deriving Repr

/-- serde serialization of a Vec<u8>: a JSON array of u8 numbers. -/
def serializeBytes (bs : List Byte) : Json :=
  Json.arr (bs.map fun b => Json.num b.val)

/-- The name of a ProofSystem variant, as serde sees it. -/
def ProofSystem.name : ProofSystem → String
  | .Plonk => "Plonk"
  | .Groth16 => "Groth16"
  | .STARK => "STARK"

/-- serde serialization of the unit enum ProofSystem: the variant name. -/
def ProofSystem.serialize (s : ProofSystem) : Json :=
  Json.str s.name

/-- serde serialization of ProofFixture: an object with the four fields
in declaration order. -/
def ProofFixture.serialize (f : ProofFixture) : Json :=
  Json.obj
    [("proof", serializeBytes f.proof),
     ("public_values", serializeBytes f.public_values),
     ("vk", serializeBytes f.vk),
     ("system", f.system.serialize)]

/-- serde deserialization of a single u8 from JSON. -/
def deserializeByte : Json → Option Byte
  | .num n => if h : n < 256 then some ⟨n, h⟩ else none
  | _ => none

/-- serde deserialization of every element of a JSON array into bytes. -/
def deserializeByteList : List Json → Option (List Byte)
  | [] => some []
  | j :: rest => do
      let b ← deserializeByte j
      let bs ← deserializeByteList rest
      pure (b :: bs)

/-- serde deserialization of a Vec<u8> from JSON (array of u8 numbers). -/
def deserializeBytes : Json → Option (List Byte)
  | .arr xs => deserializeByteList xs
  | _ => none

/-- serde deserialization of ProofSystem: the variant name as a string. -/
def ProofSystem.deserialize : Json → Option ProofSystem
  | .str "Plonk" => some .Plonk
  | .str "Groth16" => some .Groth16
  | .str "STARK" => some .STARK
  | _ => none

/-- First member of a JSON object with the given key, as the serde
derive deserializer looks fields up by name. -/
def lookupField (k : String) : List (String × Json) → Option Json
  | [] => none
  | (k', v) :: rest => if k' = k then some v else lookupField k rest

/-- serde deserialization of ProofFixture: an object supplying all four
fields. -/
def ProofFixture.deserialize : Json → Option ProofFixture
  | .obj fields => do
      let jp ← lookupField "proof" fields
      let p ← deserializeBytes jp
      let jpv ← lookupField "public_values" fields
      let pv ← deserializeBytes jpv
      let jvk ← lookupField "vk" fields
      let v ← deserializeBytes jvk
      let js ← lookupField "system" fields
      let s ← ProofSystem.deserialize js
      pure { proof := p, public_values := pv, vk := v, system := s }
  | _ => none

/-- The error kinds of the three fallible steps of create_proof_fixture
(lib.rs lines 63-68: directory creation, serialization, file write). -/
inductive FixtureError where
  | dirError
  | serializationError
  | writeError
deriving DecidableEq, Repr

/-- Oracle for the ambient I/O environment: which of the fallible
external steps fail during this call.  Serialization is kept fallible
because the Rust contract propagates a serde_json error. -/
structure Env where
  dir_create_fails : Bool
  serialize_fails : Bool
  write_fails : Bool
deriving DecidableEq, Repr

/-- The filesystem state visible to create_proof_fixture: whether the
fixtures directory exists, and the files as a path-to-document map. -/
structure FS where
  fixtures_dir_exists : Bool
  files : List (String × Json)
deriving Repr

/-- Store a document at a path, replacing any previous document there
(fs::write truncates and overwrites). -/
def setFile : List (String × Json) → String → Json → List (String × Json)
  | [], k, v => [(k, v)]
  | (k', v') :: rest, k, v =>
      if k' = k then (k, v) :: rest else (k', v') :: setFile rest k v

/-- Read a document back from the file map. -/
def getFile : List (String × Json) → String → Option Json
  | [], _ => none
  | (k', v) :: rest, k => if k' = k then some v else getFile rest k

/-- The ProofFixture built by create_proof_fixture (lib.rs lines
99-104): the input byte vectors are cloned unchanged into the record. -/
def mkFixture (proof : SP1ProofWithPublicValues) (vk : SP1VerifyingKey)
    (system : ProofSystem) : ProofFixture :=
  { proof := proof.proof
    public_values := proof.public_values
    vk := vk.vk
    system := system }

/-- The filename chosen from the ProofSystem tag (lib.rs lines 107-111). -/
def filename : ProofSystem → String
  | .Plonk => "proof_fixture_plonk.json"
  | .Groth16 => "proof_fixture_groth16.json"
  | .STARK => "proof_fixture_STARK.json"

/-- The path written, fixtures_dir.join(filename) (lib.rs line 113). -/
def fixture_path (system : ProofSystem) : String :=
  "fixtures/" ++ filename system

/-- create_proof_fixture (lib.rs lines 88-122) as a state-passing
function: it returns the filesystem after the call together with the
Result value.  Each fallible step propagates its error with the Rust
question-mark operator, so the function returns at the first failure.
fs::create_dir_all succeeds without doing anything when the directory
already exists, so the directory-creation oracle only applies when the
directory is missing.  A failed fs::write is modelled as leaving the
file map unchanged. -/
def create_proof_fixture (env : Env) (fs : FS)
    (proof : SP1ProofWithPublicValues) (vk : SP1VerifyingKey)
    (system : ProofSystem) : FS × Except FixtureError Unit :=
  if !fs.fixtures_dir_exists && env.dir_create_fails then
    (fs, .error .dirError)
  else
    let fs1 : FS := { fs with fixtures_dir_exists := true }
    let fixture := mkFixture proof vk system
    if env.serialize_fails then
      (fs1, .error .serializationError)
    else
      let json := fixture.serialize
      if env.write_fails then
        (fs1, .error .writeError)
      else
        ({ fs1 with files := setFile fs1.files (fixture_path system) json },
         .ok ())

theorem deserializeByte_num (b : Byte) : deserializeByte (Json.num b.val) = some b := by
  simp [deserializeByte, b.isLt]

theorem deserializeBytes_serializeBytes (bs : List Byte) :
    deserializeBytes (serializeBytes bs) = some bs := by
  simp only [serializeBytes, deserializeBytes]
  induction bs with
  | nil => rfl
  | cons b rest ih =>
      simp [deserializeByteList, deserializeByte_num, ih]

theorem proofSystem_deserialize_serialize (s : ProofSystem) :
    ProofSystem.deserialize s.serialize = some s := by
  cases s <;> rfl

/-- Helper: serializing then deserializing a ProofFixture restores it. -/
theorem proofFixture_deserialize_serialize (f : ProofFixture) :
    ProofFixture.deserialize f.serialize = some f := by
  obtain ⟨p, pv, v, s⟩ := f
  simp [ProofFixture.serialize, ProofFixture.deserialize, lookupField,
        deserializeBytes_serializeBytes, proofSystem_deserialize_serialize]

theorem getFile_setFile (files : List (String × Json)) (k : String) (v : Json) :
    getFile (setFile files k v) k = some v := by
  induction files with
  | nil => simp [setFile, getFile]
  | cons hd rest ih =>
      obtain ⟨k', v'⟩ := hd
      by_cases h : k' = k <;> simp [setFile, getFile, h, ih]

theorem setFile_setFile (files : List (String × Json)) (k : String) (v1 v2 : Json) :
    setFile (setFile files k v1) k v2 = setFile files k v2 := by
  induction files with
  | nil => simp [setFile]
  | cons hd rest ih =>
      obtain ⟨k', v'⟩ := hd
      by_cases h : k' = k <;> simp [setFile, h, ih]

theorem map_fst_setFile (files : List (String × Json)) (k : String) (v1 v2 : Json) :
    (setFile files k v1).map Prod.fst = (setFile files k v2).map Prod.fst := by
  induction files with
  | nil => simp [setFile]
  | cons hd rest ih =>
      obtain ⟨k', v'⟩ := hd
      by_cases h : k' = k <;> simp [setFile, h, ih]

/-- True when a JSON value is a number that fits in an unsigned 8-bit
integer. -/
def isU8Num : Json → Bool
  | .num n => n < 256
  | _ => false

/-- True when a Result value is the directory-creation error. -/
def isDirError : Except FixtureError Unit → Bool
  | .error .dirError => true
  | _ => false

theorem all_isU8Num_map (bs : List Byte) :
    (bs.map fun b => Json.num b.val).all isU8Num = true := by
  induction bs with
  | nil => rfl
  | cons b rest ih => simp_all [isU8Num, b.isLt]

/-- Claim C1: the serialized JSON of every ProofFixture represents the
proof, public_values and vk byte sequences as JSON arrays of unsigned
8-bit integer numbers (not strings), and represents the system field as
the variant name string, with exact casing Plonk, Groth16, STARK. -/
theorem fixture_serializes_bytes_as_u8_arrays_and_system_as_name (f : ProofFixture) :
    f.serialize = Json.obj
      [("proof", Json.arr (f.proof.map fun b => Json.num b.val)),
       ("public_values", Json.arr (f.public_values.map fun b => Json.num b.val)),
       ("vk", Json.arr (f.vk.map fun b => Json.num b.val)),
       ("system", Json.str f.system.name)] ∧
    ((f.proof.map fun b => Json.num b.val).all isU8Num = true ∧
     (f.public_values.map fun b => Json.num b.val).all isU8Num = true ∧
     (f.vk.map fun b => Json.num b.val).all isU8Num = true) ∧
    (ProofSystem.name .Plonk = "Plonk" ∧
     ProofSystem.name .Groth16 = "Groth16" ∧
     ProofSystem.name .STARK = "STARK") :=
  ⟨rfl,
   ⟨all_isU8Num_map f.proof, all_isU8Num_map f.public_values, all_isU8Num_map f.vk⟩,
   rfl, rfl, rfl⟩

/-- Claim C2: the filename is a total, exhaustive and injective pure
function of the ProofSystem tag, producing exactly the three fixed
names proof_fixture_plonk.json, proof_fixture_groth16.json and
proof_fixture_STARK.json. -/
theorem filename_total_exhaustive_injective :
    filename .Plonk = "proof_fixture_plonk.json" ∧
    filename .Groth16 = "proof_fixture_groth16.json" ∧
    filename .STARK = "proof_fixture_STARK.json" ∧
    (∀ s : ProofSystem,
      filename s = "proof_fixture_plonk.json" ∨
      filename s = "proof_fixture_groth16.json" ∨
      filename s = "proof_fixture_STARK.json") ∧
    ∀ s1 s2 : ProofSystem, filename s1 = filename s2 → s1 = s2 := by
  refine ⟨rfl, rfl, rfl, ?_, ?_⟩
  · intro s; cases s
    · exact Or.inl rfl
    · exact Or.inr (Or.inl rfl)
    · exact Or.inr (Or.inr rfl)
  · intro s1 s2 h
    cases s1 <;> cases s2 <;> first
      | rfl
      | exact absurd h (by decide)

/-- Witness for claim C2 at the Plonk tag. -/
theorem filename_total_exhaustive_injective_witness :
    filename .Plonk = "proof_fixture_plonk.json" ∧
    (ProofSystem.Plonk = ProofSystem.Plonk) :=
  ⟨filename_total_exhaustive_injective.1,
   filename_total_exhaustive_injective.2.2.2.2 .Plonk .Plonk rfl⟩

/-- Claim C3: for every combination of proof bytes, public_values
bytes, vk bytes and ProofSystem tag, serializing the FixtureRecord and
deserializing the result yields a record whose four fields equal the
originals. -/
theorem fixture_roundtrip_preserves_fields (p pv vkb : List Byte) (s : ProofSystem) :
    ∃ g : ProofFixture,
      ProofFixture.deserialize (ProofFixture.serialize ⟨p, pv, vkb, s⟩) = some g ∧
      g.proof = p ∧ g.public_values = pv ∧ g.vk = vkb ∧ g.system = s :=
  ⟨⟨p, pv, vkb, s⟩, proofFixture_deserialize_serialize _, rfl, rfl, rfl, rfl⟩

/-- Claim C4: the FixtureRecord constructed by create_proof_fixture
holds exactly the input proof bytes, public_values bytes, vk bytes and
system tag, unchanged, for every input including empty sequences. -/
theorem mkFixture_copies_inputs_unchanged (p : SP1ProofWithPublicValues)
    (v : SP1VerifyingKey) (s : ProofSystem) :
    (mkFixture p v s).proof = p.proof ∧
    (mkFixture p v s).public_values = p.public_values ∧
    (mkFixture p v s).vk = v.vk ∧
    (mkFixture p v s).system = s :=
  ⟨rfl, rfl, rfl, rfl⟩

/-- Claim C5: create_proof_fixture returns an error exactly when one of
its three fallible steps fails, propagating the first failing step
directly, and returns the unit value on success. -/
theorem create_result_characterizes_failures (env : Env) (fs : FS)
    (p : SP1ProofWithPublicValues) (v : SP1VerifyingKey) (s : ProofSystem) :
    (create_proof_fixture env fs p v s).2 =
      if !fs.fixtures_dir_exists && env.dir_create_fails then
        Except.error FixtureError.dirError
      else if env.serialize_fails then
        Except.error FixtureError.serializationError
      else if env.write_fails then
        Except.error FixtureError.writeError
      else
        Except.ok () := by
  by_cases h1 : (!fs.fixtures_dir_exists && env.dir_create_fails) = true <;>
    by_cases h2 : env.serialize_fails = true <;>
      by_cases h3 : env.write_fails = true <;>
        simp [create_proof_fixture, h1, h2, h3]

/-- Claim C6: writing twice with the same tag leaves the target file
holding only the second serialization, and a repeated call with
identical inputs reproduces the same filesystem state with success. -/
theorem create_overwrite_and_idempotent (env : Env) (fs : FS)
    (p1 : SP1ProofWithPublicValues) (v1 : SP1VerifyingKey)
    (p2 : SP1ProofWithPublicValues) (v2 : SP1VerifyingKey) (s : ProofSystem)
    (hd : env.dir_create_fails = false) (hs : env.serialize_fails = false)
    (hw : env.write_fails = false) :
    getFile (create_proof_fixture env (create_proof_fixture env fs p1 v1 s).1
        p2 v2 s).1.files (fixture_path s)
      = some (ProofFixture.serialize (mkFixture p2 v2 s)) ∧
    create_proof_fixture env (create_proof_fixture env fs p1 v1 s).1 p1 v1 s =
      ((create_proof_fixture env fs p1 v1 s).1, Except.ok ()) := by
  simp [create_proof_fixture, hd, hs, hw, getFile_setFile, setFile_setFile]

/-- Witness for claim C6 with two concrete Plonk payloads. -/
theorem create_overwrite_and_idempotent_witness :
    getFile (create_proof_fixture ⟨false, false, false⟩
        (create_proof_fixture ⟨false, false, false⟩ ⟨false, []⟩ ⟨[1], [2]⟩ ⟨[3]⟩ .Plonk).1
        ⟨[4, 5], []⟩ ⟨[]⟩ .Plonk).1.files (fixture_path .Plonk)
      = some (ProofFixture.serialize (mkFixture ⟨[4, 5], []⟩ ⟨[]⟩ .Plonk)) ∧
    create_proof_fixture ⟨false, false, false⟩
        (create_proof_fixture ⟨false, false, false⟩ ⟨false, []⟩ ⟨[1], [2]⟩ ⟨[3]⟩ .Plonk).1
        ⟨[1], [2]⟩ ⟨[3]⟩ .Plonk =
      ((create_proof_fixture ⟨false, false, false⟩ ⟨false, []⟩ ⟨[1], [2]⟩ ⟨[3]⟩ .Plonk).1,
       Except.ok ()) :=
  create_overwrite_and_idempotent ⟨false, false, false⟩ ⟨false, []⟩
    ⟨[1], [2]⟩ ⟨[3]⟩ ⟨[4, 5], []⟩ ⟨[]⟩ .Plonk rfl rfl rfl

/-- Claim C7: empty proof, public_values or vk sequences are accepted
without error, an empty sequence serializes as the empty JSON array,
and the record round-trips. -/
theorem empty_sequences_accepted_and_roundtrip (env : Env) (fs : FS)
    (p : SP1ProofWithPublicValues) (v : SP1VerifyingKey) (s : ProofSystem)
    (hd : env.dir_create_fails = false) (hs : env.serialize_fails = false)
    (hw : env.write_fails = false)
    (_hempty : p.proof = [] ∨ p.public_values = [] ∨ v.vk = []) :
    (create_proof_fixture env fs p v s).2 = Except.ok () ∧
    serializeBytes [] = Json.arr [] ∧
    deserializeBytes (Json.arr []) = some [] ∧
    ProofFixture.deserialize (ProofFixture.serialize (mkFixture p v s)) =
      some (mkFixture p v s) := by
  refine ⟨?_, rfl, rfl, proofFixture_deserialize_serialize _⟩
  simp [create_proof_fixture, hd, hs, hw]

/-- Witness for claim C7 with all three sequences empty under STARK. -/
theorem empty_sequences_accepted_and_roundtrip_witness :
    (create_proof_fixture ⟨false, false, false⟩ ⟨false, []⟩ ⟨[], []⟩ ⟨[]⟩ .STARK).2 =
      Except.ok () ∧
    serializeBytes [] = Json.arr [] ∧
    deserializeBytes (Json.arr []) = some [] ∧
    ProofFixture.deserialize (ProofFixture.serialize (mkFixture ⟨[], []⟩ ⟨[]⟩ .STARK)) =
      some (mkFixture ⟨[], []⟩ ⟨[]⟩ .STARK) :=
  empty_sequences_accepted_and_roundtrip ⟨false, false, false⟩ ⟨false, []⟩
    ⟨[], []⟩ ⟨[]⟩ .STARK rfl rfl rfl (Or.inl rfl)

/-- Claim C8: when create_proof_fixture fails during directory creation
or during serialization, the file map is left exactly as it was. -/
theorem failure_before_write_leaves_files_untouched (env : Env) (fs : FS)
    (p : SP1ProofWithPublicValues) (v : SP1VerifyingKey) (s : ProofSystem)
    (h : (create_proof_fixture env fs p v s).2 = Except.error FixtureError.dirError ∨
         (create_proof_fixture env fs p v s).2 = Except.error FixtureError.serializationError) :
    (create_proof_fixture env fs p v s).1.files = fs.files := by
  obtain ⟨d, sf, wf⟩ := env
  obtain ⟨de, files⟩ := fs
  cases d <;> cases sf <;> cases wf <;> cases de <;>
    simp_all [create_proof_fixture]

/-- Witness for claim C8: a directory-creation failure leaves a
pre-existing file in place. -/
theorem failure_before_write_leaves_files_untouched_witness :
    ((create_proof_fixture ⟨true, false, false⟩
        ⟨false, [("fixtures/proof_fixture_plonk.json", Json.num 7)]⟩
        ⟨[1], []⟩ ⟨[]⟩ .Plonk).2 = Except.error FixtureError.dirError ∨
     (create_proof_fixture ⟨true, false, false⟩
        ⟨false, [("fixtures/proof_fixture_plonk.json", Json.num 7)]⟩
        ⟨[1], []⟩ ⟨[]⟩ .Plonk).2 = Except.error FixtureError.serializationError) ∧
    (create_proof_fixture ⟨true, false, false⟩
        ⟨false, [("fixtures/proof_fixture_plonk.json", Json.num 7)]⟩
        ⟨[1], []⟩ ⟨[]⟩ .Plonk).1.files =
      [("fixtures/proof_fixture_plonk.json", Json.num 7)] :=
  ⟨Or.inl rfl,
   failure_before_write_leaves_files_untouched ⟨true, false, false⟩
     ⟨false, [("fixtures/proof_fixture_plonk.json", Json.num 7)]⟩
     ⟨[1], []⟩ ⟨[]⟩ .Plonk (Or.inl rfl)⟩

/-- Claim C9: a pre-existing fixtures directory never produces the
directory-creation error, and a call with the directory already present
behaves exactly like a call where the directory is missing and its
creation succeeds. -/
theorem existing_dir_never_errors_and_is_like_fresh_creation (env : Env)
    (files : List (String × Json)) (p : SP1ProofWithPublicValues)
    (v : SP1VerifyingKey) (s : ProofSystem) :
    isDirError (create_proof_fixture env ⟨true, files⟩ p v s).2 = false ∧
    create_proof_fixture env ⟨true, files⟩ p v s =
      create_proof_fixture { env with dir_create_fails := false } ⟨false, files⟩ p v s := by
  by_cases h2 : env.serialize_fails = true <;>
    by_cases h3 : env.write_fails = true <;>
      simp [create_proof_fixture, isDirError, h2, h3]

/-- Claim C10: the set of file paths touched, the directory flag and
the Result value of create_proof_fixture depend only on the system tag,
never on the proof, public_values or vk byte contents. -/
theorem written_path_independent_of_payload (env : Env) (fs : FS) (s : ProofSystem)
    (p1 p2 : SP1ProofWithPublicValues) (v1 v2 : SP1VerifyingKey) :
    (create_proof_fixture env fs p1 v1 s).1.files.map Prod.fst =
      (create_proof_fixture env fs p2 v2 s).1.files.map Prod.fst ∧
    (create_proof_fixture env fs p1 v1 s).1.fixtures_dir_exists =
      (create_proof_fixture env fs p2 v2 s).1.fixtures_dir_exists ∧
    (create_proof_fixture env fs p1 v1 s).2 =
      (create_proof_fixture env fs p2 v2 s).2 := by
  by_cases h1 : (!fs.fixtures_dir_exists && env.dir_create_fails) = true <;>
    by_cases h2 : env.serialize_fails = true <;>
      by_cases h3 : env.write_fails = true <;>
        simp [create_proof_fixture, h1, h2, h3]
  exact map_fst_setFile fs.files (fixture_path s) _ _
